import Mathlib

set_option maxRecDepth 8192

/-!
Shallow embedding of the termal terminal emulator core: the escape-sequence
parser (src/escape/mod.rs, src/escape/utf8.rs) and the screen model
(src/terminal/mod.rs).  Machine integers are modelled as `Nat`/`Int`; a Rust
panic (out-of-bounds index, failed `unwrap`) is modelled by returning `none`.
External handles (X11 display, Xft colors, PTY, audio, clipboard) carry no
grid state; operations on them are modelled as no-ops on the screen state.
-/

namespace Termal

/-- Rust `v[i] = x` on a Vec/array: `none` models the out-of-bounds panic. -/
def setAt (l : List α) (i : Nat) (v : α) : Option (List α) :=
  if i < l.length then some (l.set i v) else none

/-- Rust `expr as usize` on an `i32`/`i64` value: two's-complement wrap into
the unsigned 64-bit range. -/
def usizeCast (i : Int) : Nat :=
  (i % (2 ^ 64 : Int)).toNat

/-! ## UTF-8 decoder (src/escape/utf8.rs) -/

/-- Codepoint as emitted by `Utf8::advance`; `valid` carries the scalar value. -/
inductive Codepoint where
  | valid (c : Nat)
  | invalid
deriving DecidableEq

/-- Action enum of the UTF-8 state machine (utf8.rs). -/
inductive U8Action where
  | emit (b : Nat)
  | setByte1 (b : Nat)
  | setByte2 (b : Nat)
  | setByte2Top (b : Nat)
  | setByte3 (b : Nat)
  | setByte3Top (b : Nat)
  | setByte4Top (b : Nat)
  | invalidSequence
deriving DecidableEq

/-- State enum of the UTF-8 state machine (utf8.rs). -/
inductive U8State where
  | ground
  | tail1
  | tail2
  | tail3
deriving DecidableEq

/-- `State::advance` from utf8.rs: returns the action and the next state. -/
def U8State.advance : U8State → Nat → U8Action × U8State
  | .ground, b =>
      if b ≤ 0x7f then (.emit b, .ground)
      else if 0xc2 ≤ b ∧ b ≤ 0xdf then (.setByte2Top b, .tail1)
      else if 0xe0 ≤ b ∧ b ≤ 0xef then (.setByte3Top b, .tail2)
      else if 0xf0 ≤ b ∧ b ≤ 0xf4 then (.setByte4Top b, .tail3)
      else (.invalidSequence, .ground)
  | .tail3, b => (.setByte3 b, .tail2)
  | .tail2, b => (.setByte2 b, .tail1)
  | .tail1, b => (.setByte1 b, .ground)

/-- Unicode scalar predicate, exactly the domain of Rust `char::from_u32`. -/
def isScalar (n : Nat) : Bool :=
  decide (n < 0xd800 ∨ (0xdfff < n ∧ n ≤ 0x10ffff))

/-- Decoder state `Utf8` from utf8.rs: recognition state plus the codepoint
accumulator (`point: u32`; all accumulated values stay below `2 ^ 32`). -/
structure Utf8 where
  state : U8State
  point : Nat
deriving DecidableEq

/-- `Utf8::advance`: outer `none` models the panic of
`char::from_u32(point).unwrap()` on a non-scalar accumulated value. -/
def Utf8.advance (u : Utf8) (byte : Nat) : Option (Utf8 × Option Codepoint) :=
  match u.state.advance byte with
  | (.emit b, st) => some ({ state := st, point := 0 }, some (.valid b))
  | (.setByte1 b, st) =>
      let point := u.point ||| (b &&& 0x3f)
      if isScalar point then some ({ state := st, point := 0 }, some (.valid point))
      else none
  | (.setByte2 b, st) => some ({ state := st, point := u.point ||| ((b &&& 0x3f) <<< 6) }, none)
  | (.setByte3 b, st) => some ({ state := st, point := u.point ||| ((b &&& 0x3f) <<< 12) }, none)
  | (.setByte2Top b, st) => some ({ state := st, point := u.point ||| ((b &&& 0x1f) <<< 6) }, none)
  | (.setByte3Top b, st) => some ({ state := st, point := u.point ||| ((b &&& 0x0f) <<< 12) }, none)
  | (.setByte4Top b, st) => some ({ state := st, point := u.point ||| ((b &&& 0x07) <<< 18) }, none)
  | (.invalidSequence, st) => some ({ state := st, point := u.point }, some .invalid)

/-- Fresh decoder (`Utf8::new`). -/
def Utf8.new : Utf8 := { state := .ground, point := 0 }

/-! ## Escape-sequence parser (src/escape/mod.rs) -/

/-- `MAX_INTERMEDIATES` from escape/mod.rs. -/
def MAX_INTERMEDIATES : Nat := 2

/-- `MAX_CSI` from escape/mod.rs. -/
def MAX_CSI : Nat := 128

/-- Parser `Action`; slice payloads are modelled as copied lists. -/
inductive PAction where
  | print (c : Nat)
  | execute (b : Nat)
  | csiDispatch (params : List Nat) (intermediates : List Nat) (final : Nat)
  | escDispatch (intermediates : List Nat) (b : Nat)
  | oscDispatch (buf : List Nat)
deriving DecidableEq

/-- Parser `State` enum. -/
inductive PState where
  | anywhere
  | entry
  | csiParams
  | escParams
  | oscParams
deriving DecidableEq

/-- `Params`: fixed 128-slot u16 CSI array, 1024-byte OSC buffer, shared index. -/
structure Params where
  csi : List Nat
  osc : List Nat
  index : Nat
deriving DecidableEq

/-- `Intermediates`: fixed 2-byte buffer plus write index. -/
structure Intermediates where
  buf : List Nat
  index : Nat
deriving DecidableEq

/-- `Intermediates::esc_param`: dispatch on a final byte, push an intermediate,
or fall through.  Returns the updated buffer, the updated state, and the
emitted action; `none` models the unchecked `self.buf[self.index] = byte`
panicking when the buffer is full. -/
def Intermediates.esc_param (im : Intermediates) (byte : Nat) (st : PState) :
    Option (Intermediates × PState × Option PAction) :=
  if 0x30 ≤ byte ∧ byte ≤ 0x7e then
    some ({ im with index := 0 }, .anywhere, some (.escDispatch (im.buf.take im.index) byte))
  else if 0x20 ≤ byte ∧ byte ≤ 0x2f then
    match setAt im.buf im.index byte with
    | some buf => some ({ buf := buf, index := im.index + 1 }, st, none)
    | none => none
  else
    some (im, st, none)

/-- `Parser` state record. -/
structure Parser where
  state : PState
  params : Params
  intermediates : Intermediates
  utf8 : Utf8
deriving DecidableEq

/-- `Parser::new`. -/
def Parser.new : Parser :=
  { state := .anywhere
    params := { csi := List.replicate MAX_CSI 0, osc := List.replicate 1024 0, index := 0 }
    intermediates := { buf := List.replicate MAX_INTERMEDIATES 0, index := 0 }
    utf8 := Utf8.new }

/-- `Parser::advance`: one input byte to (next parser, at most one action);
`none` models a panic (out-of-bounds slice or index, or the UTF-8 unwrap). -/
def Parser.advance (p : Parser) (byte : Nat) : Option (Parser × Option PAction) :=
  if byte = 0x1b then
    some ({ p with
              state := .entry
              params := { p.params with csi := List.replicate MAX_CSI 0, index := 0 }
              intermediates := { buf := List.replicate MAX_INTERMEDIATES 0, index := 0 } },
          none)
  else
    match p.state with
    | .anywhere =>
        if byte < 0x1f then
          some (p, some (.execute byte))
        else
          match p.utf8.advance byte with
          | none => none
          | some (u, some (.valid c)) => some ({ p with utf8 := u }, some (.print c))
          | some (u, some .invalid) => some ({ p with utf8 := u }, none)
          | some (u, none) => some ({ p with utf8 := u }, none)
    | .entry =>
        if byte = 0x5b then
          some ({ p with state := .csiParams }, none)
        else if byte = 0x5d then
          some ({ p with state := .oscParams }, none)
        else
          match p.intermediates.esc_param byte p.state with
          | none => none
          | some (im, st, some a) => some ({ p with intermediates := im, state := st }, some a)
          | some (im, _, none) => some ({ p with intermediates := im, state := .escParams }, none)
    | .csiParams =>
        if 0x40 ≤ byte ∧ byte < 0x7e then
          if p.params.index + 1 ≤ p.params.csi.length ∧
              p.intermediates.index ≤ p.intermediates.buf.length then
            some ({ p with state := .anywhere },
                  some (.csiDispatch (p.params.csi.take (p.params.index + 1))
                                     (p.intermediates.buf.take p.intermediates.index) byte))
          else none
        else if 0x30 ≤ byte ∧ byte < 0x3f then
          if byte = 0x3b ∨ byte = 0x3a then
            some ({ p with params := { p.params with index := p.params.index + 1 } }, none)
          else
            match p.params.csi.get? p.params.index with
            | none => none
            | some cur =>
                let v := if cur ≠ 0 then min (cur * 10 + byte - 0x30) 65535 else byte - 0x30
                match setAt p.params.csi p.params.index v with
                | some csi => some ({ p with params := { p.params with csi := csi } }, none)
                | none => none
        else if 0x20 ≤ byte ∧ byte < 0x2f ∧ p.intermediates.index ≤ MAX_INTERMEDIATES then
          match setAt p.intermediates.buf p.intermediates.index byte with
          | some buf =>
              some ({ p with intermediates := { buf := buf, index := p.intermediates.index + 1 } },
                    none)
          | none => none
        else if byte < 0x0f then
          some (p, some (.execute byte))
        else
          some (p, none)
    | .escParams =>
        match p.intermediates.esc_param byte p.state with
        | none => none
        | some (im, st, a) => some ({ p with intermediates := im, state := st }, a)
    | .oscParams =>
        if byte = 0x07 ∨ byte = 0x9c then
          if p.params.index ≤ p.params.osc.length then
            some ({ p with state := .anywhere },
                  some (.oscDispatch (p.params.osc.take p.params.index)))
          else none
        else
          match setAt p.params.osc p.params.index byte with
          | some osc =>
              some ({ p with params := { p.params with osc := osc, index := p.params.index + 1 } },
                    none)
          | none => none

/-- Feeding a byte list through `Parser::advance`; `none` when some byte panics. -/
def Parser.run (p : Parser) (bytes : List Nat) : Option Parser :=
  match bytes with
  | [] => some p
  | b :: bs =>
      match p.advance b with
      | none => none
      | some (p', _) => p'.run bs

end Termal


/-! ## Screen model (src/terminal/mod.rs)

The `Screen` record keeps the plain-data fields of the Rust `Screen` struct.
External handles (`display`, `audio`, `xft`, `pty`, `clipboard`) and the
purely input-side fields (`selection`, `focused`, `should_close`) are omitted:
no operation modelled here reads or writes them, and writes to the PTY or
log output do not change the screen state. `UniColor` keeps only its `raw`
`Color`, because the Rust `PartialEq` for `UniColor` compares `raw` alone and
the cached `xft` handle is derived from it. -/

namespace Termal

/-- `xlib::Color`: an (r, g, b) triple of u64 components. -/
structure Color where
  r : Nat
  g : Nat
  b : Nat
deriving DecidableEq

/-- `config::UniColor`, reduced to its `raw` color (see module comment). -/
abbrev UniColor := Color

/-- `Attribute`: foreground and background colors of a cell. -/
structure Attribute where
  fg : UniColor
  bg : UniColor
deriving DecidableEq

/-- `Character`: one grid cell, an attribute and a codepoint. -/
structure Character where
  attr : Attribute
  byte : Char
deriving DecidableEq

/-- `Position` with `i32` coordinates. -/
structure Position where
  x : Int
  y : Int
deriving DecidableEq

/-- `Cursor`: current and saved positions. -/
structure Cursor where
  position : Position
  save : Position
deriving DecidableEq

/-- `Window` extent in pixels. -/
structure Window where
  width : Nat
  height : Nat
deriving DecidableEq

/-- `Cell` metrics in pixels (10 by 20 in `Terminal::new`). -/
structure Cell where
  width : Nat
  height : Nat
deriving DecidableEq

/-- `ScrollingRegion`: inclusive row indices. -/
structure ScrollingRegion where
  top : Nat
  bottom : Nat
deriving DecidableEq

/-- `Mode` flags. -/
structure Mode where
  decim : Bool
  decom : Bool
  decscnm : Bool
  decckm : Bool
  dectecm : Bool
  decalt : Bool
  decpaste : Bool
  decfocus : Bool
deriving DecidableEq

/-- `CursorStyle`. -/
inductive CursorStyle where
  | block
  | line
  | underline
deriving DecidableEq

/-- `Config` fields the dispatcher reads (colors and defaults). -/
structure Config where
  fg : UniColor
  bg : UniColor
  colors : List UniColor
  tab_max : Nat
deriving DecidableEq

/-- `AltScreen`: the saved alternate-screen snapshot. -/
structure AltScreen where
  buf : List (List Character)
  attr : Attribute
  mode : Mode
  cursor : Cursor
deriving DecidableEq

/-- `Screen`: grid, cursor, attribute, modes, region, alt snapshot, dirty map,
tab stops and the bookkeeping flags (see module comment for omitted fields). -/
structure Screen where
  cursor : Cursor
  window : Window
  config : Config
  attr : Attribute
  cell : Cell
  mode : Mode
  cursor_style : CursorStyle
  scrolling_region : ScrollingRegion
  buf : List (List Character)
  alt : AltScreen
  dirty : List (List Bool)
  tabs : List Bool
  refresh : Bool
  scroll_set : Bool
deriving DecidableEq

/-- Helper: the cell at row `y`, column `x` (`none` when out of bounds). -/
def cellAt (s : Screen) (y x : Nat) : Option Character :=
  (s.buf.get? y).bind (fun row => row.get? x)

/-- Helper: replace the cursor x coordinate (the Rust field assignment
`self.cursor.position.x = v`). -/
def Screen.setX (s : Screen) (v : Int) : Screen :=
  { s with cursor := { s.cursor with position := { s.cursor.position with x := v } } }

/-- Helper: replace the cursor y coordinate. -/
def Screen.setY (s : Screen) (v : Int) : Screen :=
  { s with cursor := { s.cursor with position := { s.cursor.position with y := v } } }

/-- Rust loop `for column in lo..hi { l[column] = true }` on one dirty row:
`none` models the panic on the first out-of-bounds column. -/
def markRange (l : List Bool) (lo hi : Nat) : Option (List Bool) :=
  if hi ≤ lo then some l
  else if hi ≤ l.length then
    some (l.mapIdx (fun i b => if lo ≤ i ∧ i < hi then true else b))
  else none

/-- Rust loop `for column in lo..hi { self.dirty[y][column] = true }`. -/
def Screen.markDirtyRow (s : Screen) (y lo hi : Nat) : Option Screen :=
  if hi ≤ lo then some s
  else
    match s.dirty.get? y with
    | none => none
    | some drow =>
        match markRange drow lo hi with
        | some drow' => some { s with dirty := s.dirty.set y drow' }
        | none => none

/-- `Screen::set_char`: write one cell, marking it dirty only when the value
changes; `none` models the out-of-bounds panics of `self.buf[y][x]` and
`self.dirty[y][x]`. -/
def Screen.set_char (s : Screen) (y x : Nat) (character : Character) : Option Screen :=
  match s.buf.get? y with
  | none => none
  | some row =>
      match row.get? x with
      | none => none
      | some cur =>
          if cur ≠ character then
            match s.dirty.get? y with
            | none => none
            | some drow =>
                if x < drow.length then
                  some { s with
                           buf := s.buf.set y (row.set x character)
                           dirty := s.dirty.set y (drow.set x true) }
                else none
          else some s

/-- `Screen::insert_char`: shift the row right from `x` (`Vec::insert` then
`Vec::pop`), then mark the row dirty from `x` to its end. -/
def Screen.insert_char (s : Screen) (y x : Nat) (character : Character) : Option Screen :=
  match s.buf.get? y with
  | none => none
  | some row =>
      if x ≤ row.length then
        let row1 := (row.insertIdx x character).dropLast
        Screen.markDirtyRow { s with buf := s.buf.set y row1 } y x row1.length
      else none

/-- Blank row built by the scroll primitives:
`vec![Character { byte: ' ', attr: self.attr }; width / cell.width + 1]`. -/
def Screen.blankRow (s : Screen) : List Character :=
  List.replicate (s.window.width / s.cell.width + 1) { byte := ' ', attr := s.attr }

/-- `Screen::full_dirt`: replace the dirty map by an all-true map of the
current window dimensions. -/
def Screen.full_dirt (s : Screen) : Screen :=
  { s with
      dirty := List.replicate (s.window.height / s.cell.height + 1)
                 (List.replicate (s.window.width / s.cell.width + 1) true) }

/-- `Screen::scroll_down`: remove the scrolling-region top row, insert a blank
row at `y`, full dirty; `none` models the `Vec::remove`/`Vec::insert` panics. -/
def Screen.scroll_down (s : Screen) (y : Nat) : Option Screen :=
  if s.scrolling_region.top < s.buf.length then
    let buf1 := s.buf.eraseIdx s.scrolling_region.top
    if y ≤ buf1.length then
      some (Screen.full_dirt { s with buf := buf1.insertIdx y s.blankRow })
    else none
  else none

/-- `Screen::scroll_up`: remove the scrolling-region bottom row, insert a
blank row at `y`, full dirty. -/
def Screen.scroll_up (s : Screen) (y : Nat) : Option Screen :=
  if s.scrolling_region.bottom < s.buf.length then
    let buf1 := s.buf.eraseIdx s.scrolling_region.bottom
    if y ≤ buf1.length then
      some (Screen.full_dirt { s with buf := buf1.insertIdx y s.blankRow })
    else none
  else none

/-- `Screen::switch_screen`: swap grid, cursor, attribute and modes with the
alternate-screen snapshot, then full dirty. -/
def Screen.switch_screen (s : Screen) : Screen :=
  Screen.full_dirt
    { s with
        alt := { buf := s.buf, cursor := s.cursor, attr := s.attr, mode := s.mode }
        buf := s.alt.buf
        cursor := s.alt.cursor
        attr := s.alt.attr
        mode := s.alt.mode }

/-- `Screen::decom_clamp`: clamp the cursor row into the scrolling region. -/
def Screen.decom_clamp (s : Screen) : Screen :=
  if s.cursor.position.y < (s.scrolling_region.top : Int) then
    s.setY (s.scrolling_region.top : Int)
  else if (s.scrolling_region.bottom : Int) < s.cursor.position.y then
    s.setY (s.scrolling_region.bottom : Int)
  else s

/-- Forward tab-stop search of C0 `0x09`: from index `j` upward, the first
index holding `true`; `none` models `self.tabs[x]` running past the end.  The
fuel `tabs.length + 1` covers every terminating run. -/
def findTabAux (tabs : List Bool) : Nat → Nat → Option Nat
  | 0, _ => none
  | fuel + 1, j =>
      match tabs.get? j with
      | none => none
      | some true => some j
      | some false => findTabAux tabs fuel (j + 1)

/-- Forward tab-stop search entry point. -/
def findTab (tabs : List Bool) (j : Nat) : Option Nat :=
  findTabAux tabs (tabs.length + 1) j

/-- `Screen::print`: write the character at the cursor (replace or insert
mode), then advance x unless it has reached `window.width / cell.width`. -/
def Screen.print (s : Screen) (c : Char) : Option Screen :=
  let character : Character := { attr := s.attr, byte := c }
  let written :=
    if !s.mode.decim then
      s.set_char (usizeCast s.cursor.position.y) (usizeCast s.cursor.position.x) character
    else
      s.insert_char (usizeCast s.cursor.position.y) (usizeCast s.cursor.position.x) character
  match written with
  | none => none
  | some t =>
      if t.cursor.position.x < ((t.window.width / t.cell.width : Nat) : Int) then
        some (t.setX (t.cursor.position.x + 1))
      else some t

/-- `Screen::execute`: C0 control codes.  The bell (`0x07`) only plays audio
and unknown codes only log, so both leave the screen unchanged. -/
def Screen.execute (s : Screen) (byte : Nat) : Option Screen :=
  if byte = 0x09 then
    match findTab s.tabs (usizeCast (s.cursor.position.x + 1)) with
    | some j => some (s.setX (j : Int))
    | none => none
  else if byte = 0x0a ∨ byte = 0x0b ∨ byte = 0x0c then
    if s.scrolling_region.bottom ≤ usizeCast s.cursor.position.y then
      s.scroll_down s.scrolling_region.bottom
    else
      some (s.setY (s.cursor.position.y + 1))
  else if byte = 0x0d then
    some (s.setX 0)
  else if byte = 0x08 then
    if 0 < s.cursor.position.x then
      some (s.setX (s.cursor.position.x - 1))
    else some s
  else some s

end Termal

/-! ## Dispatcher (src/terminal/mod.rs, `csi_dispatch` / `esc_dispatch`)

Replies written back to the PTY (`write_tty_raw` in the `n`, `c` and ESC `Z`
arms) and log output do not touch the screen state and are modelled as
identities; `xft_color_alloc_value` is an external allocation whose success
path stores the requested raw color, modelled as always succeeding. -/

namespace Termal

/-- Rust half-open range `lo..hi` as the list `[lo, ..., hi - 1]`. -/
def natRange (lo hi : Nat) : List Nat :=
  (List.range hi).drop lo

/-- Rust loop `for column in cols { self.set_char(line, column, blank) }`
with the current attribute. -/
def Screen.clearCols (s : Screen) (line : Nat) (cols : List Nat) : Option Screen :=
  cols.foldlM (fun t col => t.set_char line col { byte := ' ', attr := t.attr }) s

/-- Rust loop `for column in lo..self.buf[line].len() { set_char(...) }`:
reads the row length first, so an out-of-range `line` panics (`none`). -/
def Screen.clearRowFrom (s : Screen) (line lo : Nat) : Option Screen :=
  match s.buf.get? line with
  | none => none
  | some row => s.clearCols line (natRange lo row.length)

/-- Body of one DCH (`P`) iteration:
`self.buf[y].remove(x); self.buf[y].push(blank)`. -/
def Screen.deleteChar (s : Screen) (y x : Nat) : Option Screen :=
  match s.buf.get? y with
  | none => none
  | some row =>
      if x < row.length then
        some { s with buf := s.buf.set y ((row.eraseIdx x) ++ [{ byte := ' ', attr := s.attr }]) }
      else none

/-- Backward tab-stop search of CBT (`Z`): decrement from `x` until a set tab
stop; `none` models `self.tabs[x as usize]` panicking once `x` leaves the
table (in particular as soon as `x` goes below zero).  The fuel
`x.toNat + 2` covers every terminating run. -/
def findTabBackAux (tabs : List Bool) : Nat → Int → Option Int
  | 0, _ => none
  | fuel + 1, x =>
      match tabs.get? (usizeCast x) with
      | none => none
      | some true => some x
      | some false => findTabBackAux tabs fuel (x - 1)

/-- Backward tab-stop search entry point. -/
def findTabBack (tabs : List Bool) (x : Int) : Option Int :=
  findTabBackAux tabs (x.toNat + 2) x

/-- SGR (`m`) parameter loop of `csi_dispatch`: walks the parameter list,
updating the active attribute; `none` models the panic of
`self.config.colors[param - 30]` on a short palette. -/
def Screen.sgr (s : Screen) (ps : List Nat) (index : Nat) : Option Screen :=
  if h : index < ps.length then
    let param := (ps.get? index).getD 0
    let step : Option (Screen × Nat) :=
      if param = 0 then
        some ({ s with attr := { fg := s.config.fg, bg := s.config.bg } }, 0)
      else if param = 22 ∨ param = 1 ∨ param = 3 then
        some (s, 0)
      else if param = 7 then
        some ({ s with attr := { fg := s.config.bg, bg := s.config.fg } }, 0)
      else if param = 27 then
        some ({ s with attr := { fg := s.config.fg, bg := s.config.bg } }, 0)
      else if param = 39 then
        some ({ s with attr := { s.attr with fg := s.config.fg } }, 0)
      else if param = 49 then
        some ({ s with attr := { s.attr with bg := s.config.bg } }, 0)
      else if param = 38 ∨ param = 48 then
        match (ps.get? (index + 1)).getD 2 with
        | 2 =>
            let raw : Color :=
              { r := (ps.get? (index + 2)).getD 0
                g := (ps.get? (index + 3)).getD 0
                b := (ps.get? (index + 4)).getD 0 }
            if param = 38 then some ({ s with attr := { s.attr with fg := raw } }, 4)
            else some ({ s with attr := { s.attr with bg := raw } }, 4)
        | 5 => some (s, 0)
        | _ => some (s, 0)
      else if 30 ≤ param ∧ param ≤ 37 then
        match s.config.colors.get? (param - 30) with
        | some col => some ({ s with attr := { s.attr with fg := col } }, 0)
        | none => none
      else if 90 ≤ param ∧ param ≤ 97 then
        match s.config.colors.get? (param - 90) with
        | some col => some ({ s with attr := { s.attr with fg := col } }, 0)
        | none => none
      else if 40 ≤ param ∧ param ≤ 47 then
        match s.config.colors.get? (param - 40) with
        | some col => some ({ s with attr := { s.attr with bg := col } }, 0)
        | none => none
      else if 100 ≤ param ∧ param ≤ 107 then
        match s.config.colors.get? (param - 100) with
        | some col => some ({ s with attr := { s.attr with bg := col } }, 0)
        | none => none
      else
        some (s, 0)
    match step with
    | none => none
    | some (t, extra) => t.sgr ps (index + 1 + extra)
  else some s
termination_by ps.length - index
decreasing_by omega

/-- `Screen::csi_dispatch`: the CSI command table.  Follows the source arm by
arm; the final `decom` clamp runs on the mode flags as updated by the arm. -/
def Screen.csi_dispatch (s : Screen) (params : List Nat) (intermediates : List Nat) (c : Char) :
    Option Screen :=
  let res : Option Screen :=
    if c = 'J' then
      match (params.get? 0).getD 0 with
      | 0 => do
          let t ← (natRange (usizeCast s.cursor.position.y + 1) s.buf.length).foldlM
              (fun t line => t.clearRowFrom line 0) s
          t.clearRowFrom (usizeCast t.cursor.position.y) (usizeCast t.cursor.position.x)
      | 1 => do
          let t ← (List.range (usizeCast s.cursor.position.y)).foldlM
              (fun t line => t.clearRowFrom line 0) s
          t.clearCols (usizeCast t.cursor.position.y)
            (List.range (usizeCast t.cursor.position.x + 1))
      | 3 => (List.range s.buf.length).foldlM (fun t line => t.clearRowFrom line 0) s
      | 2 => (List.range s.buf.length).foldlM (fun t line => t.clearRowFrom line 0) s
      | _ => some s
    else if c = 'K' then
      match (params.get? 0).getD 0 with
      | 0 => s.clearRowFrom (usizeCast s.cursor.position.y) (usizeCast s.cursor.position.x)
      | 1 => s.clearCols (usizeCast s.cursor.position.y)
               (List.range (usizeCast s.cursor.position.x + 1))
      | 2 => s.clearRowFrom (usizeCast s.cursor.position.y) 0
      | _ => some s
    else if c = 'H' ∨ c = 'f' then
      let x := min (max (((params.get? 1).getD 1 : Int)) 1 - 1)
                   ((s.window.width / s.cell.width : Nat) : Int)
      let y := if s.mode.decom then
                 max (((params.get? 0).getD 1 : Int)) 1 - 1 + (s.scrolling_region.top : Int)
               else
                 max (((params.get? 0).getD 1 : Int)) 1 - 1
      some ((s.setX x).setY y)
    else if c = 'A' then
      some (s.setY (s.cursor.position.y -
        min s.cursor.position.y (max (((params.get? 0).getD 1 : Int)) 1)))
    else if c = 'B' ∨ c = 'e' then
      some (s.setY (s.cursor.position.y + max (((params.get? 0).getD 1 : Int)) 1))
    else if c = 'C' ∨ c = 'a' then
      some (s.setX (s.cursor.position.x + max (((params.get? 0).getD 1 : Int)) 1))
    else if c = 'D' then
      some (s.setX (s.cursor.position.x -
        min s.cursor.position.x (max (((params.get? 0).getD 1 : Int)) 1)))
    else if c = 'E' then
      some ((s.setY (s.cursor.position.y + max (((params.get? 0).getD 1 : Int)) 1)).setX 0)
    else if c = 'F' then
      some ((s.setY (s.cursor.position.y -
        min s.cursor.position.y (max (((params.get? 0).getD 1 : Int)) 1))).setX 0)
    else if c = 'g' then
      match (params.get? 0).getD 0 with
      | 0 =>
          match setAt s.tabs (usizeCast s.cursor.position.x) false with
          | some tabs => some { s with tabs := tabs }
          | none => none
      | 3 => some { s with tabs := s.tabs.map (fun _ => false) }
      | _ => some s
    else if c = '@' then
      (List.range ((params.get? 0).getD 1)).foldlM
        (fun t _ => t.insert_char (usizeCast t.cursor.position.y)
          (usizeCast t.cursor.position.x) { attr := t.attr, byte := ' ' }) s
    else if c = 'i' then
      some s
    else if c = 'G' ∨ c.toNat = 0x60 then
      some (s.setX (max (((params.get? 0).getD 1 : Int)) 1 - 1))
    else if c = 'S' then
      s.scroll_up s.scrolling_region.top
    else if c = 'T' then
      s.scroll_down s.scrolling_region.bottom
    else if c = 'L' then do
      let t ← (List.range ((params.get? 0).getD 1)).foldlM
          (fun t _ => t.scroll_down (usizeCast t.cursor.position.y)) s
      some (t.setX 0)
    else if c = 'M' then do
      let t ← (List.range ((params.get? 0).getD 1)).foldlM
          (fun t _ => t.scroll_up (usizeCast t.cursor.position.y)) s
      some (t.setX 0)
    else if c = 'X' then
      (List.range ((params.get? 0).getD 1)).foldlM
        (fun t idx => t.set_char (usizeCast t.cursor.position.y)
          (usizeCast t.cursor.position.x + idx) { byte := ' ', attr := t.attr }) s
    else if c = 'P' then do
      let t ← (List.range ((params.get? 0).getD 1)).foldlM
          (fun t _ => t.deleteChar (usizeCast t.cursor.position.y)
            (usizeCast t.cursor.position.x)) s
      match t.buf.get? (usizeCast t.cursor.position.y) with
      | none => none
      | some row =>
          t.markDirtyRow (usizeCast t.cursor.position.y)
            (usizeCast t.cursor.position.x) row.length
    else if c = 'Z' then do
      let t ← (List.range ((params.get? 0).getD 1)).foldlM
          (fun t _ =>
            match findTabBack t.tabs (t.cursor.position.x - 1) with
            | some x => some (t.setX x)
            | none => none) s
      some (t.setX (max t.cursor.position.x 0))
    else if c = 'd' then
      some (s.setY (max (((params.get? 0).getD 1 : Int)) 1 - 1))
    else if c = 'm' then
      s.sgr params 0
    else if c = 'n' then
      some s
    else if c = 'c' then
      some s
    else if c = 's' then
      some { s with cursor := { s.cursor with save := s.cursor.position } }
    else if c = 'u' then
      some { s with cursor := { s.cursor with position := s.cursor.save } }
    else if c = 'h' then
      match (params.get? 0).getD 0 with
      | 1 => some { s with mode := { s.mode with decckm := true } }
      | 3 => some s
      | 4 => some { s with mode := { s.mode with decim := true } }
      | 5 => some { s with mode := { s.mode with decscnm := true } }
      | 6 => some { (s.setX 0).setY 0 with mode := { s.mode with decom := true } }
      | 7 => some s
      | 12 => some s
      | 25 => some { s with mode := { s.mode with dectecm := true } }
      | 1004 => some { s with mode := { s.mode with decfocus := true } }
      | 1049 =>
          if !s.mode.decalt then
            let t := s.switch_screen
            some { t with mode := { t.mode with decalt := true } }
          else some s
      | 2004 => some { s with mode := { s.mode with decpaste := true } }
      | _ => some s
    else if c = 'l' then
      match (params.get? 0).getD 0 with
      | 1 => some { s with mode := { s.mode with decckm := false } }
      | 4 => some { s with mode := { s.mode with decim := false } }
      | 5 => some { s with mode := { s.mode with decscnm := false } }
      | 6 => some { (s.setX 0).setY 0 with mode := { s.mode with decom := false } }
      | 7 => some s
      | 25 => some { s with mode := { s.mode with dectecm := false } }
      | 1004 => some { s with mode := { s.mode with decfocus := false } }
      | 1049 =>
          if s.mode.decalt then
            let t := s.switch_screen
            some { t with mode := { t.mode with decalt := false } }
          else some s
      | 2004 => some { s with mode := { s.mode with decpaste := false } }
      | _ => some s
    else if c = 'q' then
      match (params.get? 0).getD 0 with
      | 2 => some { s with cursor_style := .block }
      | 4 => some { s with cursor_style := .underline }
      | 6 => some { s with cursor_style := .line }
      | _ => some s
    else if c = 'r' then
      some { s with
               scrolling_region :=
                 { top := max ((params.get? 0).getD 0) 1 - 1
                   bottom := max ((params.get? 1).getD (s.window.height / s.cell.height)) 1 - 1 }
               cursor := { s.cursor with position := { x := 0, y := 0 } }
               scroll_set := !params.isEmpty }
    else
      some s
  match res with
  | none => none
  | some t => some (if t.mode.decom then t.decom_clamp else t)

/-- `Screen::esc_dispatch`: ESC command table; the intermediate byte defaults
to `'q'` (`0x71`) when absent. -/
def Screen.esc_dispatch (s : Screen) (intermediates : List Nat) (byte : Nat) : Option Screen :=
  let pfx := (intermediates.get? 0).getD 0x71
  if pfx = 0x28 then
    some s
  else if pfx = 0x71 ∨ pfx = 0x23 then
    if byte = 0x4d then
      if usizeCast s.cursor.position.y ≤ s.scrolling_region.top then
        s.scroll_up s.scrolling_region.top
      else
        some (s.setY (s.cursor.position.y - 1))
    else if byte = 0x44 then
      some (s.setY (s.cursor.position.y + 1))
    else if byte = 0x45 then
      some ((s.setY (s.cursor.position.y + 1)).setX 0)
    else if byte = 0x5a then
      some s
    else if byte = 0x48 then
      match setAt s.tabs (usizeCast s.cursor.position.x) true with
      | some tabs => some { s with tabs := tabs }
      | none => none
    else if byte = 0x63 then
      let default_ch : Character := { attr := { fg := s.config.fg, bg := s.config.bg }, byte := ' ' }
      let t := Screen.full_dirt
        { s with
            buf := List.replicate (s.window.height / s.cell.height + 1)
                     (List.replicate (s.window.width / s.cell.width + 1) default_ch) }
      some { (t.setX 0).setY 0 with attr := { fg := s.config.fg, bg := s.config.bg } }
    else if byte = 0x42 ∨ byte = 0x36 then
      some s
    else if byte = 0x38 then
      some { s with
               buf := List.replicate (s.window.height / s.cell.height + 1)
                        (List.replicate (s.window.width / s.cell.width + 1)
                          { byte := 'E', attr := s.attr }) }
    else some s
  else some s

end Termal

/-! ## Concrete screens for witnesses and counterexamples

Built the way `Terminal::new` builds them: a 20 by 40 pixel window with the
fixed 10 by 20 cell metrics gives a grid of `40 / 20 + 1 = 3` rows and
`20 / 10 + 1 = 3` columns, scrolling region `(0, 40 / 20 - 1) = (0, 1)`,
fully dirty, tab stops every 8th column up to `tab_max`. -/

namespace Termal

/-- Default foreground `d7-e0-da` from config. -/
def defaultFg : Color := { r := 0xd7, g := 0xe0, b := 0xda }

/-- Default background `0d-16-17` from config. -/
def defaultBg : Color := { r := 0x0d, g := 0x16, b := 0x17 }

/-- Default attribute pair. -/
def defaultAttr : Attribute := { fg := defaultFg, bg := defaultBg }

/-- Default 8-entry palette from config/mod.rs. -/
def defaultPalette : List Color :=
  [{ r := 0x28, g := 0x28, b := 0x28 }, { r := 0xcc, g := 0x24, b := 0x1d },
   { r := 0x98, g := 0x97, b := 0x1a }, { r := 0xd6, g := 0x5d, b := 0x0e },
   { r := 0x45, g := 0x85, b := 0x88 }, { r := 0xb1, g := 0x62, b := 0x86 },
   { r := 0x83, g := 0xa5, b := 0x98 }, { r := 0xeb, g := 0xdb, b := 0xb2 }]

/-- Test configuration (default colors, small `tab_max`). -/
def testConfig : Config :=
  { fg := defaultFg, bg := defaultBg, colors := defaultPalette, tab_max := 16 }

/-- Blank cell with the default attribute. -/
def blank0 : Character := { attr := defaultAttr, byte := ' ' }

/-- Default mode flags from `Terminal::new` (only `dectecm` set). -/
def initialMode : Mode :=
  { decim := false, decom := false, decscnm := false, decckm := false
    dectecm := true, decalt := false, decpaste := false, decfocus := false }

/-- A 3-row by 3-column screen as `Terminal::new` builds it for a 20 by 40
pixel window. -/
def testScreen : Screen :=
  { cursor := { position := { x := 0, y := 0 }, save := { x := 0, y := 0 } }
    window := { width := 20, height := 40 }
    config := testConfig
    attr := defaultAttr
    cell := { width := 10, height := 20 }
    mode := initialMode
    cursor_style := .block
    scrolling_region := { top := 0, bottom := 1 }
    buf := List.replicate 3 (List.replicate 3 blank0)
    alt := { buf := List.replicate 3 (List.replicate 3 blank0), attr := defaultAttr
             mode := initialMode
             cursor := { position := { x := 0, y := 0 }, save := { x := 0, y := 0 } } }
    dirty := List.replicate 3 (List.replicate 3 true)
    tabs := (List.range 16).map (fun i => i % 8 == 0)
    refresh := true
    scroll_set := false }

/-- Letter cell used to give rows distinct contents. -/
def letterCell (c : Char) : Character := { attr := defaultAttr, byte := c }

/-- The test screen with three pairwise distinct rows. -/
def testScreenABC : Screen :=
  { testScreen with
      buf := [List.replicate 3 (letterCell 'a'), List.replicate 3 (letterCell 'b'),
              List.replicate 3 (letterCell 'c')] }

/-- The test screen with the cursor parked at the right edge
`x = window.width / cell.width = 2`. -/
def testScreenEdge : Screen :=
  { testScreen with cursor := { position := { x := 2, y := 0 }, save := { x := 0, y := 0 } } }

/-- A parser sitting in the `CsiParams` state with empty buffers. -/
def csiParser : Parser := { Parser.new with state := .csiParams }

/-! ## Claims -/

/-- C1: the spec claims `Parser::advance` never panics on any byte sequence.
The code violates this: in `CsiParams` the intermediate-byte guard tests
`index <= MAX_INTERMEDIATES`, so the five bytes ESC `[` SP SP SP reach
`intermediates.buf[2]` in a 2-byte buffer and panic with an index
out of bounds (modelled as `none`).  The other half of the claim, at most one
action per byte, holds by the shape of the return type. -/
theorem C1_parser_panics_on_third_intermediate :
    Parser.run Parser.new [0x1b, 0x5b, 0x20, 0x20, 0x20] = none := by rfl

/-- C2: the spec claims the cursor stays inside the grid after every
dispatched action.  The code violates this: CUD (`CSI 99 B`) adds the
parameter to `y` without any clamp (only origin mode clamps), leaving
`y = 99` on a 3-row grid. -/
theorem C2_cursor_leaves_grid :
    (Screen.csi_dispatch testScreen [99] [] 'B').map
        (fun t => (t.cursor.position.y, (t.buf.length : Int))) = some (99, 3) := by decide

/-- C3: two successive `switch_screen` calls restore the grid buffer, the
active attribute, the mode flags and the cursor exactly. -/
theorem C3_switch_screen_involution (s : Screen) :
    (s.switch_screen.switch_screen).buf = s.buf ∧
    (s.switch_screen.switch_screen).attr = s.attr ∧
    (s.switch_screen.switch_screen).mode = s.mode ∧
    (s.switch_screen.switch_screen).cursor = s.cursor :=
  ⟨rfl, rfl, rfl, rfl⟩

/-- C4: writing the character a cell already holds is a complete no-op:
`set_char` returns the screen unchanged (in particular `dirty[y][x]` is not
set and the grid is untouched). -/
theorem C4_idempotent_write (s : Screen) (y x : Nat) (row : List Character) (ch : Character)
    (hrow : s.buf.get? y = some row) (hcell : row.get? x = some ch) :
    s.set_char y x ch = some s := by
  simp only [List.get?_eq_getElem?] at hrow hcell
  simp [Screen.set_char, hrow, hcell]

/-- Witness for C4 on the concrete test screen. -/
theorem C4_idempotent_write_witness :
    testScreen.set_char 0 0 blank0 = some testScreen :=
  C4_idempotent_write testScreen 0 0 (List.replicate 3 blank0) blank0 rfl rfl

/-- C10: C0 backspace decrements the cursor column exactly when it is
positive, and leaves the whole screen untouched when the column is zero. -/
theorem C10_backspace (s : Screen) :
    (0 < s.cursor.position.x →
        s.execute 0x08 = some (s.setX (s.cursor.position.x - 1))) ∧
    (s.cursor.position.x = 0 → s.execute 0x08 = some s) := by
  constructor
  · intro h
    simp [Screen.execute, h]
  · intro h
    simp [Screen.execute, h]

/-- Witness for C10 on the concrete test screen (column 0: full no-op). -/
theorem C10_backspace_witness : testScreen.execute 0x08 = some testScreen :=
  (C10_backspace testScreen).2 rfl

end Termal

namespace Termal

/-- Digit accumulation of `Parser::advance` in the `CsiParams` state: any byte
in `0x30-0x3e` other than the separators `:` and `;` folds into the current
parameter slot as `min(old * 10 + (byte - 0x30), u16::MAX)` (the `old = 0`
branch stores `byte - 0x30`, which equals the saturated formula). -/
theorem advance_digit_fold (p : Parser) (hst : p.state = .csiParams)
    (hidx : p.params.index < p.params.csi.length) (b : Nat)
    (hb1 : 0x30 ≤ b) (hb2 : b ≤ 0x3e) (hb3 : b ≠ 0x3a) (hb4 : b ≠ 0x3b) :
    p.advance b = some ({ p with params := { p.params with
        csi := p.params.csi.set p.params.index
          (min (((p.params.csi.get? p.params.index).getD 0) * 10 + (b - 0x30)) 65535) } },
      none) := by
  obtain ⟨cur, hcur⟩ : ∃ cur, p.params.csi.get? p.params.index = some cur :=
    ⟨_, List.get?_eq_get hidx⟩
  have h1 : ¬ b = 0x1b := by omega
  have h2 : ¬ (0x40 ≤ b ∧ b < 0x7e) := by omega
  have h3 : 0x30 ≤ b ∧ b < 0x3f := ⟨hb1, by omega⟩
  have h4 : ¬ (b = 0x3b ∨ b = 0x3a) := by
    rintro (h | h) <;> omega
  have hval : (if cur ≠ 0 then min (cur * 10 + b - 0x30) 65535 else b - 0x30)
      = min (cur * 10 + (b - 0x30)) 65535 := by
    by_cases hc : cur = 0
    · subst hc; simp; omega
    · rw [if_pos hc]; omega
  simp only [Parser.advance, hst, h1, h2, h3, h4, hcur, setAt, hidx, and_self, if_true,
    if_false, ite_true, ite_false, Option.getD_some, hval]

/-- C5 counterexample: the spec claims each of the bytes `0x3c`-`0x3f` is
pushed onto the intermediates buffer in the `CsiParams` state.  In the code,
`?` (`0x3f`) matches no branch at all and leaves the parser unchanged, and
`<` (`0x3c`) falls into the digit branch `0x30 <= byte < 0x3f` and is folded
into the parameter accumulator as the digit value 12 while the intermediates
index stays 0. -/
theorem C5_question_mark_dropped :
    csiParser.advance 0x3f = some (csiParser, none) ∧
    (csiParser.advance 0x3c).map
        (fun r => (r.1.intermediates.index, (r.1.params.csi.get? 0).getD 0)) = some (0, 12) :=
  ⟨rfl, rfl⟩

/-- C5 (amended): in the `CsiParams` state the bytes `<`, `=`, `>`
(`0x3c`-`0x3e`) are folded into the numeric parameter accumulator as digit
values 12-14, and `?` (`0x3f`) is silently discarded with the parser left
unchanged; none of the four is pushed onto the intermediates buffer. -/
theorem C5_private_markers_amended (p : Parser) (hst : p.state = .csiParams)
    (hidx : p.params.index < p.params.csi.length) (b : Nat)
    (hb1 : 0x3c ≤ b) (hb2 : b ≤ 0x3f) :
    (b ≤ 0x3e →
        p.advance b = some ({ p with params := { p.params with
            csi := p.params.csi.set p.params.index
              (min (((p.params.csi.get? p.params.index).getD 0) * 10 + (b - 0x30)) 65535) } },
          none)) ∧
    (b = 0x3f → p.advance b = some (p, none)) := by
  constructor
  · intro hle
    exact advance_digit_fold p hst hidx b (by omega) hle (by omega) (by omega)
  · intro hb
    subst hb
    simp [Parser.advance, hst]

/-- Witness for C5 (amended): `<` on a fresh `CsiParams` parser stores 12 in
parameter slot 0. -/
theorem C5_private_markers_amended_witness :
    csiParser.advance 0x3c = some ({ csiParser with params := { csiParser.params with
        csi := csiParser.params.csi.set 0 12 } }, none) :=
  (C5_private_markers_amended csiParser rfl (by decide) 0x3c (by decide) (by decide)).1
    (by decide)

/-- C6: in the `CsiParams` state a digit byte `d` updates the current
parameter slot to `min(old * 10 + (d - 0x30), u16::MAX)`: the accumulation
saturates at 65535 and never wraps. -/
theorem C6_param_saturation (p : Parser) (hst : p.state = .csiParams)
    (hidx : p.params.index < p.params.csi.length) (b : Nat)
    (hb1 : 0x30 ≤ b) (hb2 : b ≤ 0x39) :
    p.advance b = some ({ p with params := { p.params with
        csi := p.params.csi.set p.params.index
          (min (((p.params.csi.get? p.params.index).getD 0) * 10 + (b - 0x30)) 65535) } },
      none) :=
  advance_digit_fold p hst hidx b hb1 (by omega) (by omega) (by omega)

/-- A `CsiParams` parser whose slot 0 already holds 6554, so one more digit
overflows the u16 range. -/
def satParser : Parser :=
  { Parser.new with
      state := .csiParams
      params := { Parser.new.params with csi := (List.replicate MAX_CSI 0).set 0 6554 } }

/-- Witness for C6: the digit 9 on current value 6554 saturates the slot to
65535 instead of wrapping (6554 * 10 + 9 = 65549 > 65535). -/
theorem C6_param_saturation_witness :
    satParser.advance 0x39 = some ({ satParser with params := { satParser.params with
        csi := satParser.params.csi.set 0 65535 } }, none) :=
  C6_param_saturation satParser rfl (by decide) 0x39 (by decide) (by decide)

end Termal

namespace Termal

/-- Reduction of `csi_dispatch` at the final byte `S`: the arm calls
`scroll_up` at the region top exactly once, then the `decom` clamp runs. -/
theorem csi_dispatch_S (s : Screen) (ps inter : List Nat) :
    s.csi_dispatch ps inter 'S' =
      match s.scroll_up s.scrolling_region.top with
      | none => none
      | some t => some (if t.mode.decom then t.decom_clamp else t) := rfl

/-- Reduction of `csi_dispatch` at the final byte `T`. -/
theorem csi_dispatch_T (s : Screen) (ps inter : List Nat) :
    s.csi_dispatch ps inter 'T' =
      match s.scroll_down s.scrolling_region.bottom with
      | none => none
      | some t => some (if t.mode.decom then t.decom_clamp else t) := rfl

/-- `scroll_up` touches only the grid and the dirty map. -/
theorem scroll_up_mode (s : Screen) (y : Nat) (t : Screen) (h : s.scroll_up y = some t) :
    t.mode = s.mode := by
  unfold Screen.scroll_up at h
  split at h
  · dsimp only at h
    split at h
    · obtain rfl : _ = t := Option.some.inj h
      rfl
    · cases h
  · cases h

/-- `scroll_down` touches only the grid and the dirty map. -/
theorem scroll_down_mode (s : Screen) (y : Nat) (t : Screen) (h : s.scroll_down y = some t) :
    t.mode = s.mode := by
  unfold Screen.scroll_down at h
  split at h
  · dsimp only at h
    split at h
    · obtain rfl : _ = t := Option.some.inj h
      rfl
    · cases h
  · cases h

end Termal

namespace Termal

/-- C7 counterexample: the spec claims `CSI n S` performs `scroll_up` at the
region top `n` times.  On a screen with three distinct rows, dispatching
`CSI 2 S` does not equal two successive `scroll_up` calls at the region top:
the code ignores the parameter. -/
theorem C7_scroll_count_counterexample :
    Screen.csi_dispatch testScreenABC [2] [] 'S' ≠
      (testScreenABC.scroll_up testScreenABC.scrolling_region.top).bind
        (fun t => t.scroll_up t.scrolling_region.top) := by decide

/-- C7 (amended): `CSI S` performs `scroll_up` at the region top exactly
once, and `CSI T` performs `scroll_down` at the region bottom exactly once,
both ignoring the parameter (outside origin mode, whose clamp would also
touch the cursor afterwards). -/
theorem C7_scroll_once_amended (s : Screen) (ps inter : List Nat)
    (hdecom : s.mode.decom = false) :
    s.csi_dispatch ps inter 'S' = s.scroll_up s.scrolling_region.top ∧
    s.csi_dispatch ps inter 'T' = s.scroll_down s.scrolling_region.bottom := by
  constructor
  · rw [csi_dispatch_S]
    cases h : s.scroll_up s.scrolling_region.top with
    | none => rfl
    | some t => simp [scroll_up_mode s _ t h, hdecom]
  · rw [csi_dispatch_T]
    cases h : s.scroll_down s.scrolling_region.bottom with
    | none => rfl
    | some t => simp [scroll_down_mode s _ t h, hdecom]

/-- Witness for C7 (amended) on the three-row screen. -/
theorem C7_scroll_once_amended_witness :
    testScreenABC.csi_dispatch [2] [] 'S' =
      testScreenABC.scroll_up testScreenABC.scrolling_region.top :=
  (C7_scroll_once_amended testScreenABC [2] [] rfl).1

end Termal

namespace Termal

/-- Success of `set_char` leaves the cursor, window and cell metrics alone
and makes the target cell hold the written character. -/
theorem set_char_frame (s : Screen) (y x : Nat) (ch : Character) (t : Screen)
    (h : s.set_char y x ch = some t) :
    t.cursor = s.cursor ∧ t.window = s.window ∧ t.cell = s.cell ∧ cellAt t y x = some ch := by
  unfold Screen.set_char at h
  cases hrow : s.buf.get? y with
  | none => rw [hrow] at h; cases h
  | some row =>
    simp only [hrow] at h
    cases hcell : row.get? x with
    | none =>
        simp only [hcell] at h
        cases h
    | some cur =>
      simp only [hcell] at h
      by_cases hne : cur = ch
      · rw [if_neg (not_not_intro hne)] at h
        obtain rfl : s = t := Option.some.inj h
        refine ⟨rfl, rfl, rfl, ?_⟩
        unfold cellAt
        rw [hrow, Option.some_bind, hcell, hne]
      · rw [if_pos hne] at h
        cases hd : s.dirty.get? y with
        | none =>
            simp only [hd] at h
            cases h
        | some drow =>
          simp only [hd] at h
          by_cases hlen : x < drow.length
          · rw [if_pos hlen] at h
            obtain rfl : _ = t := Option.some.inj h
            refine ⟨rfl, rfl, rfl, ?_⟩
            have hy : y < s.buf.length := by
              by_contra hge
              rw [List.get?_eq_none.mpr (Nat.le_of_not_lt hge)] at hrow
              cases hrow
            have hx : x < row.length := by
              by_contra hge
              rw [List.get?_eq_none.mpr (Nat.le_of_not_lt hge)] at hcell
              cases hcell
            simp [cellAt, List.get?_eq_getElem?, List.getElem?_set_eq_of_lt _ hy,
              List.getElem?_set_eq_of_lt _ hx]
          · rw [if_neg hlen] at h
            cases h

/-- C8 counterexample: the spec claims a print with the cursor column at
`cols` is clamped to column `cols - 1` before the write.  With the cursor at
`x = cols = 2` on the test screen, printing `A` leaves column 1 blank and
writes column 2 itself, and the cursor stays at 2. -/
theorem C8_no_right_edge_clamp :
    (testScreenEdge.print 'A').map
        (fun t => (cellAt t 0 1, cellAt t 0 2, t.cursor.position.x)) =
      some (some blank0, some { attr := defaultAttr, byte := 'A' }, 2) := by decide

/-- C8 (amended): in replace mode, printing with the cursor column equal to
`cols = window.width / cell.width` writes the character at column `cols`
itself (row buffers hold `cols + 1` cells, so the write is in bounds) and
does not move the cursor; and whenever the cursor column is at most `cols`
before a print, it is still at most `cols` afterwards, so printing never
advances the cursor past `cols`. -/
theorem C8_print_edge_amended (s : Screen) (c : Char) (t : Screen)
    (hrep : s.mode.decim = false) (h : s.print c = some t) :
    (s.cursor.position.x = ((s.window.width / s.cell.width : Nat) : Int) →
        t.cursor.position.x = s.cursor.position.x ∧
        cellAt t (usizeCast s.cursor.position.y) (usizeCast s.cursor.position.x) =
          some { attr := s.attr, byte := c }) ∧
    (s.cursor.position.x ≤ ((s.window.width / s.cell.width : Nat) : Int) →
        t.cursor.position.x ≤ ((s.window.width / s.cell.width : Nat) : Int)) := by
  unfold Screen.print at h
  simp only [hrep, Bool.not_false] at h
  cases hw : s.set_char (usizeCast s.cursor.position.y) (usizeCast s.cursor.position.x)
      { attr := s.attr, byte := c } with
  | none =>
      simp only [hw, if_true] at h
      cases h
  | some u =>
    simp only [hw, if_true] at h
    obtain ⟨hcur, hwin, hcell, hat⟩ := set_char_frame _ _ _ _ _ hw
    have hux : u.cursor.position.x = s.cursor.position.x := by rw [hcur]
    have hcols : ((u.window.width / u.cell.width : Nat) : Int)
        = ((s.window.width / s.cell.width : Nat) : Int) := by rw [hwin, hcell]
    by_cases hlt : u.cursor.position.x < ((u.window.width / u.cell.width : Nat) : Int)
    · rw [if_pos hlt] at h
      obtain rfl : _ = t := Option.some.inj h
      rw [hux, hcols] at hlt
      constructor
      · intro hx
        exact absurd hlt (by rw [hx]; exact lt_irrefl _)
      · intro hx
        have hsx : (Screen.setX u (u.cursor.position.x + 1)).cursor.position.x
            = u.cursor.position.x + 1 := rfl
        rw [hsx, hux]
        omega
    · rw [if_neg hlt] at h
      obtain rfl : u = t := Option.some.inj h
      constructor
      · intro hx
        exact ⟨hux, hat⟩
      · intro hx
        rw [hux]
        exact hx

/-- Result of printing `A` at the right edge of the test screen. -/
def edgePrinted : Screen :=
  { testScreenEdge with
      buf := testScreenEdge.buf.set 0
               ((List.replicate 3 blank0).set 2 { attr := defaultAttr, byte := 'A' })
      dirty := testScreenEdge.dirty.set 0 ((List.replicate 3 true).set 2 true) }

/-- Witness for C8 (amended) at the concrete right-edge screen. -/
theorem C8_print_edge_amended_witness :
    edgePrinted.cursor.position.x = testScreenEdge.cursor.position.x ∧
    cellAt edgePrinted (usizeCast testScreenEdge.cursor.position.y)
        (usizeCast testScreenEdge.cursor.position.x) =
      some { attr := testScreenEdge.attr, byte := 'A' } :=
  (C8_print_edge_amended testScreenEdge 'A' edgePrinted rfl (by decide)).1 (by decide)

end Termal

namespace Termal

/-- Cast equality: `as usize` of a small nonnegative `i32` value is `toNat`. -/
theorem usizeCast_eq_toNat (i : Int) (h0 : 0 ≤ i) (h1 : i < 2 ^ 64) :
    usizeCast i = i.toNat := by
  unfold usizeCast
  omega

/-- C9: C0 line feed (0x0a), vertical tab (0x0b) and form feed (0x0c) move
the cursor down one row while it is strictly above the scrolling-region
bottom, and otherwise scroll: the region's top row is removed and a blank
row is inserted at the region bottom, the cursor (row and column) staying
put.  The cursor column is never changed.  Hypotheses: the cursor row is a
nonnegative in-range i32 and both region rows lie inside the grid, as on any
screen the program builds. -/
theorem C9_line_feed (s : Screen) (b : Nat)
    (hb : b = 0x0a ∨ b = 0x0b ∨ b = 0x0c)
    (hy0 : 0 ≤ s.cursor.position.y) (hy1 : s.cursor.position.y < 2 ^ 31)
    (htop : s.scrolling_region.top < s.buf.length)
    (hbot : s.scrolling_region.bottom < s.buf.length) :
    (s.cursor.position.y.toNat < s.scrolling_region.bottom →
        s.execute b = some (s.setY (s.cursor.position.y + 1))) ∧
    (s.scrolling_region.bottom ≤ s.cursor.position.y.toNat →
        s.execute b = some (Screen.full_dirt { s with
          buf := List.insertIdx s.scrolling_region.bottom s.blankRow
                   (s.buf.eraseIdx s.scrolling_region.top) })) := by
  have husize : usizeCast s.cursor.position.y = s.cursor.position.y.toNat :=
    usizeCast_eq_toNat _ hy0 (by omega)
  have hexec : s.execute b =
      (if s.scrolling_region.bottom ≤ usizeCast s.cursor.position.y then
        s.scroll_down s.scrolling_region.bottom
      else some (s.setY (s.cursor.position.y + 1))) := by
    rcases hb with hb | hb | hb <;> subst hb <;> rfl
  rw [husize] at hexec
  constructor
  · intro hlt
    rw [hexec, if_neg (by omega)]
  · intro hge
    rw [hexec, if_pos hge]
    unfold Screen.scroll_down
    rw [if_pos htop]
    have hlen := List.length_eraseIdx_add_one htop
    dsimp only
    rw [if_pos (by omega)]

/-- Witness for C9: line feed on the test screen (cursor above the region
bottom) moves the cursor from row 0 to row 1. -/
theorem C9_line_feed_witness :
    testScreen.execute 0x0a = some (testScreen.setY (testScreen.cursor.position.y + 1)) :=
  (C9_line_feed testScreen 0x0a (Or.inl rfl) (by decide) (by decide) (by decide) (by decide)).1
    (by decide)

end Termal

